import Mathlib

/-!
Verification of pynetcheck (src/netcheck.py) against its specification.

The development shallowly embeds the pieces of `PyNetCheck` that the claims
are about: the two platform-specific regex dialects compiled in `__init__`
(lines 36-42) together with a backtracking matcher implementing Python
`re.search` semantics, the field extraction and rounding of `execute_ping`
(lines 148-156), the sqlite-backed store operations `maybe_create_tables`
(lines 48-75) and the transactional body of `ping_speedtest_save`
(lines 112-124), and the CSV export `dump_data_to_csv` (lines 159-175).
-/

/-- Character class test for the regex token `\d` (the probe outputs parsed
here are ASCII, so ASCII decimal digits). -/
def isDigitChar (c : Char) : Bool := c.isDigit

/-- Character class test for the regex token `\w` (word characters:
alphanumerics and underscore). -/
def isWordChar (c : Char) : Bool := c.isAlphanum || c == ('_' : Char)

/-- Abstract syntax of the regular expressions compiled in
`PyNetCheck.__init__` (netcheck.py lines 36-42).  `alt`, `opt` and `star`
carry Python `re`'s leftmost, greedy backtracking semantics: the left
alternative is preferred, and `star`/`opt` prefer consuming more. -/
inductive RE : Type where
  | eps : RE
  | cls : (Char → Bool) → RE
  | seq : RE → RE → RE
  | alt : RE → RE → RE
  | star : RE → RE
  | opt : RE → RE
  | group : String → RE → RE

/-- Captured groups of a match: group name paired with the captured text,
most recent capture first (`match.group` returns the last completed capture
of a repeated group, which is the first hit of a front lookup here). -/
abbrev Caps := List (String × List Char)

/-- Backtracking matcher in continuation-passing style.  `reM fuel r s caps
k` tries to match `r` against a prefix of `s`; on success the continuation
receives the remaining input and the updated captures.  The fuel only
bounds the depth of nested matcher calls, so any generous bound is
semantically inert; repetition requires progress, exactly as Python's
engine does for its quantifiers. -/
def reM : Nat → RE → List Char → Caps → (List Char → Caps → Option Caps) → Option Caps
  | 0, _, _, _, _ => none
  | Nat.succ _, RE.eps, s, caps, k => k s caps
  | Nat.succ _, RE.cls p, s, caps, k =>
      match s with
      | [] => none
      | c :: rest => if p c then k rest caps else none
  | Nat.succ f, RE.seq a b, s, caps, k =>
      reM f a s caps (fun s2 caps2 => reM f b s2 caps2 k)
  | Nat.succ f, RE.alt a b, s, caps, k =>
      (reM f a s caps k).orElse (fun _ => reM f b s caps k)
  | Nat.succ f, RE.star a, s, caps, k =>
      (reM f a s caps (fun s2 caps2 =>
         if s2.length < s.length then reM f (RE.star a) s2 caps2 k else none)).orElse
        (fun _ => k s caps)
  | Nat.succ f, RE.opt a, s, caps, k =>
      (reM f a s caps k).orElse (fun _ => k s caps)
  | Nat.succ f, RE.group n a, s, caps, k =>
      reM f a s caps (fun s2 caps2 =>
        k s2 ((n, s.take (s.length - s2.length)) :: caps2))

/-- Fuel that comfortably dominates the depth of any search path for the
four fixed patterns below on an input of length `n`. -/
def searchFuel (n : Nat) : Nat := 1000 * (n + 1)

/-- Python `re.search` over a character list: try a match at every start
position, leftmost first, including the position at end of input
(netcheck.py lines 148-149). -/
def reSearchFrom (r : RE) : List Char → Option Caps
  | [] => reM (searchFuel 0) r [] [] (fun _ caps => some caps)
  | s@(_ :: rest) =>
      (reM (searchFuel s.length) r s [] (fun _ caps => some caps)).orElse
        (fun _ => reSearchFrom r rest)

/-- Python `re.search` on a string. -/
def reSearch (r : RE) (s : String) : Option Caps := reSearchFrom r s.toList

/-- `match.group(name)`: the most recently completed capture of the named
group.  `none` models the `AttributeError` path of lines 151-154, where the
search returned `None` and `.group` is not an attribute; every named group
of the four patterns below participates in any successful match, so on
`some caps` the lookup always succeeds for the names actually used. -/
def groupOf (m : Option Caps) (n : String) : Option (List Char) :=
  match m with
  | none => none
  | some caps =>
      match caps.find? (fun p => p.fst == n) with
      | none => none
      | some p => some p.snd

/-- A literal string, as a sequence of single-character tests. -/
def litsRE (s : String) : RE :=
  s.toList.foldr (fun c r => RE.seq (RE.cls (fun x => x == c)) r) RE.eps

/-- Regex token `\d`. -/
def dRE : RE := RE.cls isDigitChar

/-- Regex token `\w`. -/
def wRE : RE := RE.cls isWordChar

/-- Regex `\w+`. -/
def wPlus : RE := RE.seq wRE (RE.star wRE)

/-- Regex `\d+`. -/
def dPlus : RE := RE.seq dRE (RE.star dRE)

/-- Regex class `[.,]`. -/
def sepRE : RE := RE.cls (fun c => c == ('.' : Char) || c == (',' : Char))

/-- Regex `\d*[.,]?\d*`, the numeral shape captured by the Unix-dialect
patterns (netcheck.py lines 37-38). -/
def uniNum : RE := RE.seq (RE.star dRE) (RE.seq (RE.opt sepRE) (RE.star dRE))

/-- Regex `(\w+ ?){1,2}`: a greedy one-or-two repetition of group 1
(a word optionally followed by a space). -/
def wordTail : RE :=
  RE.seq (RE.group ("1") (RE.seq wPlus (RE.opt (RE.cls (fun c => c == (' ' : Char))))))
    (RE.opt (RE.group ("1") (RE.seq wPlus (RE.opt (RE.cls (fun c => c == (' ' : Char)))))))

/-- Regex `(?P<percent_lost>\d*[.,]?\d*)% (\w+ ?){1,2}` (netcheck.py
line 37, the Unix-dialect percent-loss pattern). -/
def uniPercentRE : RE :=
  RE.seq (RE.group ("percent_lost") uniNum) (RE.seq (litsRE ("% ")) wordTail)

/-- Regex
`\w+/\w+/\w+/\w+ = (?P<min>\d*[.,]?\d*)/(?P<avg>\d*[.,]?\d*)/(?P<max>\d*[.,]?\d*)`
(netcheck.py line 38, the Unix-dialect timing pattern; capture order in the
source text is min, avg, max). -/
def uniTimingRE : RE :=
  RE.seq wPlus (RE.seq (litsRE ("/")) (RE.seq wPlus (RE.seq (litsRE ("/"))
    (RE.seq wPlus (RE.seq (litsRE ("/")) (RE.seq wPlus (RE.seq (litsRE (" = "))
      (RE.seq (RE.group ("min") uniNum) (RE.seq (litsRE ("/"))
        (RE.seq (RE.group ("avg") uniNum)
          (RE.seq (litsRE ("/")) (RE.group ("max") uniNum))))))))))))

/-- Regex `(?P<percent_lost>\d{1,3})% (\w+ ?){1,2}` (netcheck.py line 41,
the Windows-dialect percent-loss pattern; `\d{1,3}` is a greedy one-to-three
digit run). -/
def winPercentRE : RE :=
  RE.seq (RE.group ("percent_lost") (RE.seq dRE (RE.opt (RE.seq dRE (RE.opt dRE)))))
    (RE.seq (litsRE ("% ")) wordTail)

/-- Regex `\w+ = (?P<min>\d+)ms, \w+ = (?P<max>\d+)ms, \w+ = (?P<avg>\d+)ms`
(netcheck.py line 42, the Windows-dialect timing pattern): the three label
words are matched only as `\w+`, so the first captured integer is `min`, the
second `max` and the third `avg`, whatever the labels say. -/
def winTimingRE : RE :=
  RE.seq wPlus (RE.seq (litsRE (" = ")) (RE.seq (RE.group ("min") dPlus)
    (RE.seq (litsRE ("ms, ")) (RE.seq wPlus (RE.seq (litsRE (" = "))
      (RE.seq (RE.group ("max") dPlus) (RE.seq (litsRE ("ms, "))
        (RE.seq wPlus (RE.seq (litsRE (" = "))
          (RE.seq (RE.group ("avg") dPlus) (litsRE ("ms"))))))))))))

/-- The two regex dialects selected in `__init__` by platform: `unix`
covers `sys.platform` in `('linux', 'cygwin', 'darwin')` and `win32` covers
`'win32'`.  Any other platform raises `'Unsupported Platform.'` in
`__init__` (line 45) and never constructs a parser, so it has no
representative value here. -/
inductive Dialect : Type where
  | unix : Dialect
  | win32 : Dialect
deriving DecidableEq

/-- The `percent_lost_re` attribute of the given dialect. -/
def percentRE : Dialect → RE
  | Dialect.unix => uniPercentRE
  | Dialect.win32 => winPercentRE

/-- The `min_max_avg_re` attribute of the given dialect. -/
def timingRE : Dialect → RE
  | Dialect.unix => uniTimingRE
  | Dialect.win32 => winTimingRE

/-- Value of an ASCII digit string, most significant digit first. -/
def digitsVal (cs : List Char) : Nat :=
  cs.foldl (fun a c => 10 * a + (c.toNat - 48)) 0

/-- Python `float(s)` on the strings capturable by the numeral groups above
(digit runs possibly around a single `'.'` or `','`): it accepts digits
with at most one `'.'` and at least one digit, and raises `ValueError`
(here `none`) on a `','` separator, on the empty string and on a lone
`'.'`.  The accepted value is modelled exactly as a rational; the further
rounding of the decimal literal to binary floating point is exact for every
numeral any claim quantifies over and is not modelled. -/
def pyFloat? (cs : List Char) : Option ℚ :=
  if cs.all (fun c => isDigitChar c || c == ('.' : Char)) &&
      decide ((cs.filter (fun c => c == ('.' : Char))).length ≤ 1) &&
      cs.any isDigitChar then
    let ip := cs.takeWhile (fun c => c != ('.' : Char))
    let fp := (cs.dropWhile (fun c => c != ('.' : Char))).drop 1
    some (mkRat (digitsVal ip * 10 ^ fp.length + digitsVal fp) (10 ^ fp.length))
  else none

/-- Python `int(round(x))` as used on lines 151-154: Python 3 `round` with
one argument rounds half to even (banker's rounding) and already returns an
integer, so the outer `int` is the identity.  The fractional part
`q - q.floor` is compared against `1/2` by cross-multiplying with the
positive denominator: `r2 = 2*(q.num - q.floor*q.den)` equals
`2 * q.den * (q - q.floor)`, so `r2 < q.den` means a fractional part below
one half, `q.den < r2` above one half, and the tie `r2 = q.den` goes to the
even neighbour. -/
def pyRound (q : ℚ) : ℤ :=
  let fl : ℤ := q.floor
  let r2 : ℤ := 2 * (q.num - fl * (q.den : ℤ))
  if r2 < (q.den : ℤ) then fl
  else if (q.den : ℤ) < r2 then fl + 1
  else if fl % 2 = 0 then fl else fl + 1

/-- The exceptions `execute_ping` raises while extracting fields
(lines 151-154): `attributeError` models `'NoneType' object has no
attribute 'group'` when a search found no match, and `valueError` models
`float()` failing on the captured text. -/
inductive PingExc : Type where
  | attributeError : PingExc
  | valueError : PingExc
deriving DecidableEq

/-- The tuple returned by `execute_ping` (line 156). -/
structure PingResult : Type where
  percent_lost : ℤ
  min_ms : ℤ
  average_ms : ℤ
  max_ms : ℤ
deriving DecidableEq

deriving instance DecidableEq for Except

/-- `PyNetCheck.execute_ping` (netcheck.py lines 127-156) with `_test_data`
supplied as `data`: both compiled patterns are searched (lines 148-149),
then the named captures are converted in source order — `percent_lost`
(line 151), `min` (152), `avg` (153), `max` (154) — each via
`int(round(float(...)))`, and the tuple
`(percent_lost, min_ms, average_ms, max_ms)` is returned. -/
def executePing (dl : Dialect) (data : String) : Except PingExc PingResult :=
  match groupOf (reSearch (percentRE dl) data) ("percent_lost") with
  | none => Except.error PingExc.attributeError
  | some pcs =>
    match pyFloat? pcs with
    | none => Except.error PingExc.valueError
    | some qp =>
      match groupOf (reSearch (timingRE dl) data) ("min") with
      | none => Except.error PingExc.attributeError
      | some mcs =>
        match pyFloat? mcs with
        | none => Except.error PingExc.valueError
        | some qmin =>
          match groupOf (reSearch (timingRE dl) data) ("avg") with
          | none => Except.error PingExc.attributeError
          | some acs =>
            match pyFloat? acs with
            | none => Except.error PingExc.valueError
            | some qavg =>
              match groupOf (reSearch (timingRE dl) data) ("max") with
              | none => Except.error PingExc.attributeError
              | some xcs =>
                match pyFloat? xcs with
                | none => Except.error PingExc.valueError
                | some qmax =>
                  Except.ok ⟨pyRound qp, pyRound qmin, pyRound qavg, pyRound qmax⟩

/-- One row of the `pings` table (schema: netcheck.py lines 53-62; `date`
is the primary key). -/
structure PingRow : Type where
  date : String
  percent_lost : ℤ
  packets_sent : ℤ
  min_ms : ℤ
  max_ms : ℤ
  average_ms : ℤ
deriving DecidableEq

/-- One row of the `speedtests` table (lines 64-72; `date` is the primary
key).  `download_mbps` and `upload_mbps` are SQL FLOATs, modelled as exact
rationals. -/
structure SpeedRow : Type where
  date : String
  ping : ℤ
  download_mbps : ℚ
  upload_mbps : ℚ
  server : String
deriving DecidableEq

/-- The sqlite errors the executed statements can raise. -/
inductive SqlErr : Type where
  | uniqueConstraint : SqlErr  -- IntegrityError: UNIQUE constraint failed (duplicate primary key)
  | noSuchTable : SqlErr       -- OperationalError: no such table
deriving DecidableEq

/-- Database state: each table is absent (`none`, never created) or holds
its rows in insertion (rowid) order, which is the order an unordered
`SELECT *` returns them in. -/
structure DBState : Type where
  pings : Option (List PingRow)
  speedtests : Option (List SpeedRow)
deriving DecidableEq

/-- `PyNetCheck.maybe_create_tables` (lines 48-75): one
`CREATE TABLE IF NOT EXISTS` per table, so an existing table is left
untouched, a missing one becomes empty, and no error is possible. -/
def maybeCreateTables (s : DBState) : Except SqlErr DBState :=
  Except.ok ⟨some (s.pings.getD []), some (s.speedtests.getD [])⟩

/-- `INSERT INTO pings` (lines 114-118): a duplicate primary key `date` is
an IntegrityError (UNIQUE constraint failed); otherwise the row is
appended. -/
def insertPingRow (t : List PingRow) (r : PingRow) : Except SqlErr (List PingRow) :=
  if t.any (fun x => x.date == r.date) then Except.error SqlErr.uniqueConstraint
  else Except.ok (t ++ [r])

/-- `INSERT INTO speedtests` (lines 120-124), same key discipline. -/
def insertSpeedRow (t : List SpeedRow) (r : SpeedRow) : Except SqlErr (List SpeedRow) :=
  if t.any (fun x => x.date == r.date) then Except.error SqlErr.uniqueConstraint
  else Except.ok (t ++ [r])

/-- The database portion of `ping_speedtest_save` (lines 112-124):
`with self.db:` opens one transaction around both INSERTs; the sqlite3
connection context manager commits on success and rolls back when the body
raises, so on any error the durable state is the input state.  The result
is the durable state paired with the surfaced error, if any. -/
def pingSpeedtestSaveDb (s : DBState) (pr : PingRow) (sr : SpeedRow) : DBState × Option SqlErr :=
  match s.pings with
  | none => (s, some SqlErr.noSuchTable)
  | some pt =>
    match insertPingRow pt pr with
    | Except.error e => (s, some e)
    | Except.ok pt2 =>
      match s.speedtests with
      | none => (s, some SqlErr.noSuchTable)
      | some st =>
        match insertSpeedRow st sr with
        | Except.error e => (s, some e)
        | Except.ok st2 => (⟨some pt2, some st2⟩, none)

/-- The rows `ping_speedtest_save` builds for one cycle (lines 113-124):
both rows carry the same `datetime` string, the pings row carries the
parsed ping figures and the configured packet count, the speedtests row
the throughput figures. -/
def pingSpeedtestSaveRows (datetime : String) (pingCount : ℤ) (pres : PingResult)
    (spPing : ℤ) (dl up : ℚ) (server : String) (s : DBState) : DBState × Option SqlErr :=
  pingSpeedtestSaveDb s
    ⟨datetime, pres.percent_lost, pingCount, pres.min_ms, pres.max_ms, pres.average_ms⟩
    ⟨datetime, spPing, dl, up, server⟩

/-- Pad a digit string with leading zeros up to width `k`. -/
def padLeftZeros (s : String) (k : Nat) : String :=
  if s.length < k then String.mk (List.replicate (k - s.length) ('0')) ++ s else s

/-- Least `k` such that the denominator `den` divides `10 ^ k`, searched up
to the fuel bound; every SQLite FLOAT is an IEEE double, whose exact
decimal expansion terminates well inside the bound used below. -/
def decExpAux (den : Nat) : Nat → Nat → Option Nat
  | 0, _ => none
  | Nat.succ fuel, k =>
      if 10 ^ k % den = 0 then some k else decExpAux den fuel (k + 1)

/-- Python `str()` of a nonnegative float fetched from the store, modelled
on the exact rational value: integer part, `'.'`, fractional digits (at
least one, so `5` prints as `5.0` just as `str(5.0)` does).  With
`den ∣ 10 ^ k`, the integer `q * 10 ^ k` is `q.num * (10 ^ k / q.den)`.
Python's shortest-round-trip digit selection agrees with the exact
expansion on the two-decimal values the program stores; no claim depends
on digits beyond that, only on the absence of delimiter and
line-terminator characters. -/
def pyFloatStrNN (q : ℚ) : String :=
  match decExpAux q.den 1101 0 with
  | some 0 => toString q.num ++ "." ++ "0"
  | some (Nat.succ k) =>
      let n := q.num.toNat * (10 ^ (k + 1) / q.den)
      toString (n / 10 ^ (k + 1)) ++ "." ++ padLeftZeros (toString (n % 10 ^ (k + 1))) (k + 1)
  | none => toString q.num ++ "e" ++ toString q.den

/-- Python `str()` of a float fetched from the store. -/
def pyFloatStr (q : ℚ) : String :=
  if q < 0 then "-" ++ pyFloatStrNN (-q) else pyFloatStrNN q

/-- The fields csv.writer receives for one pings row, in `SELECT *` column
order (lines 166-168). -/
def pingRowFields (r : PingRow) : List String :=
  [r.date, toString r.percent_lost, toString r.packets_sent,
   toString r.min_ms, toString r.max_ms, toString r.average_ms]

/-- The fields csv.writer receives for one speedtests row (lines 173-175). -/
def speedRowFields (r : SpeedRow) : List String :=
  [r.date, toString r.ping, pyFloatStr r.download_mbps, pyFloatStr r.upload_mbps, r.server]

/-- Under the `'pretty'` dialect of `dump_data_to_csv` (line 160:
`delimiter='\t'`, `quoting=csv.QUOTE_NONE`, default quotechar `'"'`, no
escapechar), a field containing the delimiter, the quote character or a
line-terminator character cannot be written: csv.writer raises
`Error('need to escape, but no escapechar set')`. -/
def fieldNeedsEscape (s : String) : Bool :=
  s.toList.any (fun c =>
    c == ('\t' : Char) || c == ('"' : Char) || c == ('\r' : Char) || c == ('\n' : Char))

/-- Join one row's fields with the tab delimiter, unquoted. -/
def tabLine (fs : List String) : String := String.intercalate ("\t") fs

/-- `csv.writer.writerows` with the `'pretty'` dialect: rows are written in
order until one needs escaping, at which point `csv.Error` is raised;
returns the lines actually written and whether the error occurred. -/
def writeRows : List (List String) → List String × Bool
  | [] => ([], false)
  | fs :: rest =>
    if fs.any fieldNeedsEscape then ([], true)
    else
      let p := writeRows rest
      (tabLine fs :: p.1, p.2)

/-- Header line of pings.csv (line 164). -/
def pingsHeader : String :=
  tabLine (["Date/time", "Percent_Lost", "Packets_Sent", "Min", "Max", "Avg"])

/-- Header line of speedtests.csv (line 171). -/
def speedtestsHeader : String :=
  tabLine (["Date/time", "Ping", "Download", "Upload", "Server"])

/-- The errors `dump_data_to_csv` can raise. -/
inductive DumpErr : Type where
  | noSuchTable : DumpErr    -- OperationalError from SELECT on a never-created table
  | csvNeedEscape : DumpErr  -- csv.Error under QUOTE_NONE without escapechar
deriving DecidableEq

/-- `PyNetCheck.dump_data_to_csv` (lines 159-175): open `pings.csv` for
writing (truncating any previous file), print the header, write every
pings row; then the same for `speedtests.csv`.  Returns the lines of the
two files and the error that aborted the dump, if any; a file not yet
opened when an error hits is reported as `[]` (untouched), and each header
is printed before the table is read, so it survives a failing SELECT. -/
def dumpDataToCsv (s : DBState) : (List String × List String) × Option DumpErr :=
  match s.pings with
  | none => (([pingsHeader], []), some DumpErr.noSuchTable)
  | some pt =>
    let pw := writeRows (pt.map pingRowFields)
    if pw.2 then ((pingsHeader :: pw.1, []), some DumpErr.csvNeedEscape)
    else
      match s.speedtests with
      | none => ((pingsHeader :: pw.1, [speedtestsHeader]), some DumpErr.noSuchTable)
      | some st =>
        let sw := writeRows (st.map speedRowFields)
        if sw.2 then
          ((pingsHeader :: pw.1, speedtestsHeader :: sw.1), some DumpErr.csvNeedEscape)
        else ((pingsHeader :: pw.1, speedtestsHeader :: sw.1), none)

/-- `Rat.floor` (used by the executable `pyRound`) is Mathlib's `⌊⌋`. -/
theorem ratFloor_eq_intFloor (q : ℚ) : q.floor = ⌊q⌋ := rfl

/-- Every value `float()` accepts from a numeral capture is nonnegative:
the capture language has no sign. -/
theorem pyFloat?_nonneg (cs : List Char) (q : ℚ) (h : pyFloat? cs = some q) :
    0 ≤ q := by
  unfold pyFloat? at h
  split at h
  · simp only [Option.some.injEq] at h
    subst h
    rw [Rat.mkRat_eq_div]
    positivity
  · exact Option.noConfusion h

/-- `pyRound` sends nonnegative inputs to nonnegative integers. -/
theorem pyRound_nonneg {q : ℚ} (h : 0 ≤ q) : 0 ≤ pyRound q := by
  have hfl : 0 ≤ q.floor := by
    rw [ratFloor_eq_intFloor]
    exact Int.floor_nonneg.mpr h
  simp only [pyRound]
  split_ifs <;> omega

/-- Inversion for a successful `execute_ping`: a returned tuple comes from
successful group lookups and conversions of all four named captures, in the
order of lines 151-154, and its fields are their `int(round(float(...)))`
images. -/
theorem executePing_ok_elim (dl : Dialect) (data : String) (r : PingResult)
    (h : executePing dl data = Except.ok r) :
    ∃ pcs qp mcs qm acs qa xcs qx,
      groupOf (reSearch (percentRE dl) data) ("percent_lost") = some pcs ∧
      pyFloat? pcs = some qp ∧
      groupOf (reSearch (timingRE dl) data) ("min") = some mcs ∧
      pyFloat? mcs = some qm ∧
      groupOf (reSearch (timingRE dl) data) ("avg") = some acs ∧
      pyFloat? acs = some qa ∧
      groupOf (reSearch (timingRE dl) data) ("max") = some xcs ∧
      pyFloat? xcs = some qx ∧
      r = ⟨pyRound qp, pyRound qm, pyRound qa, pyRound qx⟩ := by
  unfold executePing at h
  split at h
  · exact Except.noConfusion h
  rename_i pcs hpcs
  split at h
  · exact Except.noConfusion h
  rename_i qp hqp
  split at h
  · exact Except.noConfusion h
  rename_i mcs hmcs
  split at h
  · exact Except.noConfusion h
  rename_i qm hqm
  split at h
  · exact Except.noConfusion h
  rename_i acs hacs
  split at h
  · exact Except.noConfusion h
  rename_i qa hqa
  split at h
  · exact Except.noConfusion h
  rename_i xcs hxcs
  split at h
  · exact Except.noConfusion h
  rename_i qx hqx
  refine ⟨pcs, qp, mcs, qm, acs, qa, xcs, qx, hpcs, hqp, hmcs, hqm, hacs, hqa, hxcs, hqx, ?_⟩
  cases h
  rfl

/-- Unix-dialect probe output used for the C2 scenario: a percent-loss line
and the well-formed `min/avg/max` summary line from the spec. -/
def c2Data : String :=
  "3 packets transmitted, 0% packet loss\nround-trip min/avg/max/mdev = 1.0/2.5/4.0/0.5 ms"

/-- C2: on the Unix dialect, a successful parse returns the three
slash-delimited numbers of the timing line in (min, avg, max) capture
order, each as `int(round(float(...)))`; in particular the spec's scenario
input yields `percent_lost = 0`, `min_ms = 1`, `average_ms = round(2.5) = 2`
(round half to even) and `max_ms = 4`. -/
theorem executePing_unix_slash_order :
    (∀ (data : String) (pcs mcs acs xcs : List Char) (qp qm qa qx : ℚ),
      groupOf (reSearch (percentRE Dialect.unix) data) ("percent_lost") = some pcs →
      pyFloat? pcs = some qp →
      groupOf (reSearch (timingRE Dialect.unix) data) ("min") = some mcs →
      pyFloat? mcs = some qm →
      groupOf (reSearch (timingRE Dialect.unix) data) ("avg") = some acs →
      pyFloat? acs = some qa →
      groupOf (reSearch (timingRE Dialect.unix) data) ("max") = some xcs →
      pyFloat? xcs = some qx →
      executePing Dialect.unix data =
        Except.ok ⟨pyRound qp, pyRound qm, pyRound qa, pyRound qx⟩) ∧
    executePing Dialect.unix (c2Data) = Except.ok ⟨0, 1, 2, 4⟩ := by
  constructor
  · intro data pcs mcs acs xcs qp qm qa qx h1 h2 h3 h4 h5 h6 h7 h8
    simp only [executePing, h1, h2, h3, h4, h5, h6, h7, h8]
  · decide

/-- Witness for C2 at the scenario input: the captures are `"0"`, `"1.0"`,
`"2.5"`, `"4.0"` and the hypotheses of the mapping all hold there. -/
theorem executePing_unix_slash_order_witness :
    executePing Dialect.unix (c2Data) =
      Except.ok ⟨pyRound (mkRat 0 1), pyRound (mkRat 10 10),
        pyRound (mkRat 25 10), pyRound (mkRat 40 10)⟩ :=
  executePing_unix_slash_order.1 (c2Data)
    (("0").toList) (("1.0").toList) (("2.5").toList) (("4.0").toList)
    (mkRat 0 1) (mkRat 10 10) (mkRat 25 10) (mkRat 40 10)
    (by decide) (by decide) (by decide) (by decide)
    (by decide) (by decide) (by decide) (by decide)

/-- Windows-dialect probe output with the three timing clauses reordered
(Average first), used as the C1 counterexample. -/
def c1CexData : String :=
  "Ping statistics: 5% loss\nAverage = 20ms, Minimum = 10ms, Maximum = 50ms"

/-- C1 counterexample: on input whose clauses read
`Average = 20ms, Minimum = 10ms, Maximum = 50ms`, extraction by field label
would give `(percent, min, avg, max) = (5, 10, 20, 50)`, but `execute_ping`
returns `(5, 20, 50, 10)`: the first clause's integer lands in `min_ms`,
the second in `max_ms` and the third in `average_ms`, so the claim that the
fields are extracted by label, regardless of clause order, is false. -/
theorem executePing_win32_bylabel_cex :
    executePing Dialect.win32 (c1CexData) =
      Except.ok ⟨5, 20, 50, 10⟩ ∧
    (⟨5, 20, 50, 10⟩ : PingResult) ≠ (⟨5, 10, 20, 50⟩ : PingResult) := by
  decide

/-- One Windows timing clause `<label> = <value>ms`. -/
def winClause (p : String × Nat) : String :=
  p.1 ++ " = " ++ toString p.2 ++ "ms"

/-- A Windows-dialect probe output with a 5% loss line and the given
timing clauses in the given order. -/
def winData (l : List (String × Nat)) : String :=
  "5% loss\n" ++ String.intercalate (", ") (l.map winClause)

/-- All six orderings of the clauses `Minimum = 10ms`, `Maximum = 50ms`,
`Average = 20ms`. -/
def clauseOrderings : List (List (String × Nat)) :=
  [[("Minimum", 10), ("Maximum", 50), ("Average", 20)],
   [("Minimum", 10), ("Average", 20), ("Maximum", 50)],
   [("Maximum", 50), ("Minimum", 10), ("Average", 20)],
   [("Maximum", 50), ("Average", 20), ("Minimum", 10)],
   [("Average", 20), ("Minimum", 10), ("Maximum", 50)],
   [("Average", 20), ("Maximum", 50), ("Minimum", 10)]]

/-- The value of the `i`-th clause of an ordering, as an integer. -/
def valAt (l : List (String × Nat)) (i : Nat) : ℤ := ((l.getD i (("", 0))).2 : ℤ)

/-- C1 (amended): for every ordering of the three labelled timing clauses,
`execute_ping` on the Windows dialect assigns the captured integers
positionally — first clause to `min_ms`, second to `max_ms`, third to
`average_ms` — ignoring the label words, which the pattern matches only as
`\w+`. -/
theorem executePing_win32_positional :
    ∀ l ∈ clauseOrderings,
      executePing Dialect.win32 (winData l) =
        Except.ok ⟨5, valAt l 0, valAt l 2, valAt l 1⟩ := by
  decide

/-- Witness for the amended C1 at the ordering `Average, Minimum, Maximum`:
its membership in `clauseOrderings` holds and the conclusion evaluates. -/
theorem executePing_win32_positional_witness :
    executePing Dialect.win32
        (winData ([("Average", 20), ("Minimum", 10), ("Maximum", 50)])) =
      Except.ok ⟨5, 20, 50, 10⟩ :=
  executePing_win32_positional
    ([("Average", 20), ("Minimum", 10), ("Maximum", 50)]) (by decide)

/-- C3: whenever either compiled pattern fails to match the probe text,
`execute_ping` raises — the `AttributeError` of calling `.group` on `None`
(or, when the percent capture was matched but unconvertible, the
`ValueError` from `float()` on line 151, which fires before line 152's
lookup) — and never returns a tuple, so no field is silently defaulted. -/
theorem executePing_unmatched_raises :
    ∀ (dl : Dialect) (data : String),
      reSearch (percentRE dl) data = none ∨ reSearch (timingRE dl) data = none →
      (executePing dl data = Except.error PingExc.attributeError ∨
        executePing dl data = Except.error PingExc.valueError) ∧
      ∀ r : PingResult, executePing dl data ≠ Except.ok r := by
  intro dl data h
  have herr : executePing dl data = Except.error PingExc.attributeError ∨
      executePing dl data = Except.error PingExc.valueError := by
    rcases h with hp | ht
    · left
      simp [executePing, hp, groupOf]
    · rcases hg : groupOf (reSearch (percentRE dl) data) ("percent_lost") with _ | pcs
      · left
        simp [executePing, hg]
      · rcases hf : pyFloat? pcs with _ | qp
        · right
          simp [executePing, hg, hf]
        · left
          simp only [executePing, hg, hf, ht]
          simp [groupOf]
  refine ⟨herr, ?_⟩
  intro r hr
  rcases herr with h2 | h2 <;> rw [h2] at hr <;> exact Except.noConfusion hr

/-- Witness for C3: on text with no percent sign at all, both searches of
the Unix dialect fail and `execute_ping` raises. -/
theorem executePing_unmatched_raises_witness :
    (executePing Dialect.unix ("unreachable host") = Except.error PingExc.attributeError ∨
      executePing Dialect.unix ("unreachable host") = Except.error PingExc.valueError) ∧
    ∀ r : PingResult, executePing Dialect.unix ("unreachable host") ≠ Except.ok r :=
  executePing_unmatched_raises Dialect.unix ("unreachable host") (Or.inl (by decide))

/-- Unix-dialect probe output whose loss figure reads `200%`; the
percent-loss pattern happily matches it. -/
def c8CexData : String :=
  "200% packet loss\nround-trip min/avg/max/mdev = 1.0/2.0/3.0/0.4 ms"

/-- C8 counterexample: the parser accepts this text (both patterns match)
and returns `percent_lost = 200`, outside the claimed range 0..100 — no
upper bound is enforced by `(?P<percent_lost>\d*[.,]?\d*)` (nor by the
Windows pattern's `\d{1,3}`, which admits up to 999). -/
theorem executePing_percent_over100_cex :
    executePing Dialect.unix (c8CexData) = Except.ok ⟨200, 1, 2, 3⟩ ∧
    ¬ ((200 : ℤ) ≤ 100) := by
  decide

/-- C8 (amended): for every accepted probe output, on either dialect, the
returned `percent_lost` is a nonnegative integer; the upper bound 100 of
the claim is not enforced by the code (see the counterexample). -/
theorem executePing_percent_nonneg :
    ∀ (dl : Dialect) (data : String) (r : PingResult),
      executePing dl data = Except.ok r → 0 ≤ r.percent_lost := by
  intro dl data r h
  obtain ⟨pcs, qp, mcs, qm, acs, qa, xcs, qx, hpcs, hqp, hmcs, hqm, hacs, hqa, hxcs, hqx, hr⟩ :=
    executePing_ok_elim dl data r h
  rw [hr]
  exact pyRound_nonneg (pyFloat?_nonneg pcs qp hqp)

/-- Witness for the amended C8 at the C2 scenario input, whose parse
succeeds with `percent_lost = 0`. -/
theorem executePing_percent_nonneg_witness :
    (0 : ℤ) ≤ (PingResult.mk 0 1 2 4).percent_lost :=
  executePing_percent_nonneg Dialect.unix (c2Data) (PingResult.mk 0 1 2 4) (by decide)

/-- Unix-dialect probe output whose three timing figures all carry the
fractional part .5, exercising the tie-breaking rule end to end. -/
def c9Data : String :=
  "0% packet loss\nround-trip min/avg/max/mdev = 1.5/2.5/3.5/0.1 ms"

/-- C9: the rounding helper `int(round(float(...)))` of lines 151-154 is
round half to even.  A value with fractional part exactly one half rounds
to the even one of its two neighbours (`pyRound q` is even and is `⌊q⌋` or
`⌊q⌋ + 1`); every integer round-trips; `2.5` rounds to `2` and `3.5` to
`4`; and on probe text with figures `1.5/2.5/3.5` the parser returns
`(min, avg, max) = (2, 2, 4)`. -/
theorem pyRound_half_to_even :
    (∀ q : ℚ, q - (⌊q⌋ : ℚ) = 1 / 2 →
      pyRound q % 2 = 0 ∧ (pyRound q = ⌊q⌋ ∨ pyRound q = ⌊q⌋ + 1)) ∧
    (∀ n : ℤ, pyRound ((n : ℚ)) = n) ∧
    pyRound (mkRat 5 2) = 2 ∧ pyRound (mkRat 7 2) = 4 ∧
    executePing Dialect.unix (c9Data) = Except.ok ⟨0, 2, 2, 4⟩ := by
  refine ⟨?_, ?_, by decide, by decide, by decide⟩
  · intro q hq
    have hden : (0 : ℚ) < (q.den : ℚ) := by exact_mod_cast q.den_pos
    have hnum : (q.num : ℚ) = q * (q.den : ℚ) := by
      have h0 : (q.num : ℚ) / (q.den : ℚ) * (q.den : ℚ) = q * (q.den : ℚ) := by
        rw [Rat.num_div_den q]
      rwa [div_mul_cancel₀ _ (ne_of_gt hden)] at h0
    have key : ((2 * (q.num - ⌊q⌋ * (q.den : ℤ)) : ℤ) : ℚ) = (((q.den : ℤ) : ℚ)) := by
      push_cast
      rw [hnum]
      linear_combination (2 * (q.den : ℚ)) * hq
    have hr2 : 2 * (q.num - ⌊q⌋ * (q.den : ℤ)) = (q.den : ℤ) := by exact_mod_cast key
    simp only [pyRound, ratFloor_eq_intFloor, hr2]
    simp only [lt_irrefl, if_false]
    by_cases he : ⌊q⌋ % 2 = 0
    · simp [he]
    · simp [he]
      omega
  · intro n
    simp only [pyRound, ratFloor_eq_intFloor, Int.floor_intCast,
      Rat.num_intCast, Rat.den_intCast]
    norm_num

/-- Witness for C9 at `q = 5/2`: its fractional part is one half, and the
tie goes to the even neighbour `2 = ⌊5/2⌋`. -/
theorem pyRound_half_to_even_witness :
    ((mkRat 5 2 : ℚ) - (⌊(mkRat 5 2 : ℚ)⌋ : ℚ) = 1 / 2) ∧
    (pyRound (mkRat 5 2) % 2 = 0 ∧
      (pyRound (mkRat 5 2) = ⌊(mkRat 5 2 : ℚ)⌋ ∨
        pyRound (mkRat 5 2) = ⌊(mkRat 5 2 : ℚ)⌋ + 1)) := by
  have hq : (mkRat 5 2 : ℚ) - (⌊(mkRat 5 2 : ℚ)⌋ : ℚ) = 1 / 2 := by
    rw [Rat.mkRat_eq_div]
    norm_num
  exact ⟨hq, pyRound_half_to_even.1 (mkRat 5 2) hq⟩

/-- Unix-dialect probe text whose loss figure uses a comma decimal
separator; both patterns match it, `float('0,5')` raises. -/
def c10CommaData : String :=
  "0,5% packet loss\nround-trip min/avg/max/mdev = 1.0/2.0/3.0/0.5 ms"

/-- Unix-dialect probe text whose percent capture is empty (`\d*[.,]?\d*`
matches the empty string right before `%`); `float('')` raises. -/
def c10EmptyData : String :=
  "% packet loss\nround-trip min/avg/max/mdev = 1.0/2.0/3.0/0.5 ms"

/-- C10: texts exist that both Unix-dialect patterns match and on which
`execute_ping` still fails — with the `ValueError` of `float()` on the
captured numeral (`'0,5'` or `''`), not with the match-failure
`AttributeError` — so a successful search of both patterns does not
guarantee a returned tuple. -/
theorem executePing_float_conv_raises :
    (reSearch (percentRE Dialect.unix) (c10CommaData)).isSome = true ∧
    (reSearch (timingRE Dialect.unix) (c10CommaData)).isSome = true ∧
    executePing Dialect.unix (c10CommaData) = Except.error PingExc.valueError ∧
    (reSearch (percentRE Dialect.unix) (c10EmptyData)).isSome = true ∧
    (reSearch (timingRE Dialect.unix) (c10EmptyData)).isSome = true ∧
    executePing Dialect.unix (c10EmptyData) = Except.error PingExc.valueError := by
  decide

/-- C6: schema creation is idempotent.  On a store where both tables
already exist, `maybe_create_tables` raises no error and changes nothing;
and from any starting state two successive calls both succeed, the second
returning its input unchanged. -/
theorem maybeCreateTables_idempotent :
    ∀ s : DBState,
      (∀ pt st, s.pings = some pt → s.speedtests = some st →
        maybeCreateTables s = Except.ok s) ∧
      (∃ s2, maybeCreateTables s = Except.ok s2 ∧ maybeCreateTables s2 = Except.ok s2) := by
  intro s
  refine ⟨?_, ⟨⟨some (s.pings.getD []), some (s.speedtests.getD [])⟩, rfl, rfl⟩⟩
  intro pt st hp hs
  cases s
  simp_all [maybeCreateTables]

/-- Witness for C6 on a store with both tables present (empty), and on a
fresh store with no tables at all. -/
theorem maybeCreateTables_idempotent_witness :
    maybeCreateTables (DBState.mk (some []) (some [])) =
      Except.ok (DBState.mk (some []) (some [])) ∧
    ∃ s2, maybeCreateTables (DBState.mk none none) = Except.ok s2 ∧
      maybeCreateTables s2 = Except.ok s2 :=
  ⟨(maybeCreateTables_idempotent (DBState.mk (some []) (some []))).1 [] [] rfl rfl,
   (maybeCreateTables_idempotent (DBState.mk none none)).2⟩

/-- C4: inserting a cycle whose timestamp already keys a row of either
table fails with the duplicate-key (UNIQUE constraint) error, and the
durable state — in particular the already-stored row — is exactly the
input state, unchanged.  The first conjunct covers a duplicate in `pings`
(the first INSERT), the second a duplicate in `speedtests` (the second
INSERT, with the `pings` insert conflict-free). -/
theorem insert_duplicate_key_fails :
    (∀ (s : DBState) (pt : List PingRow) (r0 pr : PingRow) (sr : SpeedRow),
      s.pings = some pt → r0 ∈ pt → pr.date = r0.date →
      pingSpeedtestSaveDb s pr sr = (s, some SqlErr.uniqueConstraint)) ∧
    (∀ (s : DBState) (pt : List PingRow) (st : List SpeedRow) (r0 : SpeedRow)
        (pr : PingRow) (sr : SpeedRow),
      s.pings = some pt → s.speedtests = some st →
      (∀ x ∈ pt, x.date ≠ pr.date) → r0 ∈ st → sr.date = r0.date →
      pingSpeedtestSaveDb s pr sr = (s, some SqlErr.uniqueConstraint)) := by
  constructor
  · intro s pt r0 pr sr hp hmem hdate
    have hany : pt.any (fun x => x.date == pr.date) = true :=
      List.any_eq_true.mpr ⟨r0, hmem, by simp [hdate]⟩
    simp [pingSpeedtestSaveDb, hp, insertPingRow, hany]
  · intro s pt st r0 pr sr hp hs hne hmem hdate
    have hanyF : pt.any (fun x => x.date == pr.date) = false := by
      rw [List.any_eq_false]
      intro x hx
      simpa using hne x hx
    have hany : st.any (fun x => x.date == sr.date) = true :=
      List.any_eq_true.mpr ⟨r0, hmem, by simp [hdate]⟩
    simp [pingSpeedtestSaveDb, hp, hs, insertPingRow, insertSpeedRow, hanyF, hany]

/-- A sample pings row. -/
def rowA : PingRow := PingRow.mk ("21/01/01 00:00:00") 0 25 1 4 2

/-- A second pings row carrying the same timestamp as `rowA`. -/
def rowA2 : PingRow := PingRow.mk ("21/01/01 00:00:00") 5 25 2 9 3

/-- A sample speedtests row with the same cycle timestamp. -/
def spRowB : SpeedRow := SpeedRow.mk ("21/01/01 00:00:00") 20 100 10 ("Foo (Bar)")

/-- Witness for C4: saving a cycle whose timestamp already keys `rowA`
fails with the UNIQUE-constraint error and leaves the store unchanged. -/
theorem insert_duplicate_key_fails_witness :
    pingSpeedtestSaveDb (DBState.mk (some [rowA]) (some [])) rowA2 spRowB =
      (DBState.mk (some [rowA]) (some []), some SqlErr.uniqueConstraint) :=
  insert_duplicate_key_fails.1 (DBState.mk (some [rowA]) (some []))
    [rowA] rowA rowA2 spRowB rfl (by simp) (by decide)

/-- C5: the two INSERTs of one cycle form a single transaction.  If any
error surfaces, the durable state is the input state (the first insert is
rolled back, not silently kept); if no error surfaces, both tables existed
and the durable state holds exactly both new rows of the cycle appended. -/
theorem save_cycle_transactional :
    ∀ (s : DBState) (pr : PingRow) (sr : SpeedRow),
      ((pingSpeedtestSaveDb s pr sr).2.isSome = true →
        (pingSpeedtestSaveDb s pr sr).1 = s) ∧
      ((pingSpeedtestSaveDb s pr sr).2 = none →
        ∃ pt st, s.pings = some pt ∧ s.speedtests = some st ∧
          (pingSpeedtestSaveDb s pr sr).1 =
            DBState.mk (some (pt ++ [pr])) (some (st ++ [sr]))) := by
  intro s pr sr
  unfold pingSpeedtestSaveDb
  split
  · exact ⟨fun _ => rfl, fun h => Option.noConfusion h⟩
  rename_i pt hp
  split
  · exact ⟨fun _ => rfl, fun h => Option.noConfusion h⟩
  rename_i pt2 hins
  split
  · exact ⟨fun _ => rfl, fun h => Option.noConfusion h⟩
  rename_i st hs
  split
  · exact ⟨fun _ => rfl, fun h => Option.noConfusion h⟩
  rename_i st2 hins2
  refine ⟨fun h => by simp at h, fun _ => ⟨pt, st, hp, hs, ?_⟩⟩
  unfold insertPingRow at hins
  unfold insertSpeedRow at hins2
  split at hins
  · exact Except.noConfusion hins
  split at hins2
  · exact Except.noConfusion hins2
  cases hins
  cases hins2
  rfl

/-- Witness for C5: on a store with both tables empty, the cycle save
succeeds and the durable state holds exactly the two new rows. -/
theorem save_cycle_transactional_witness :
    ∃ pt st, (DBState.mk (some []) (some [])).pings = some pt ∧
      (DBState.mk (some []) (some [])).speedtests = some st ∧
      (pingSpeedtestSaveDb (DBState.mk (some []) (some [])) rowA2 spRowB).1 =
        DBState.mk (some (pt ++ [rowA2])) (some (st ++ [spRowB])) :=
  (save_cycle_transactional (DBState.mk (some []) (some [])) rowA2 spRowB).2 rfl

/-- When no field of any row needs escaping, `writerows` writes every row
as its tab-joined line, in order, without error. -/
theorem writeRows_clean (rows : List (List String))
    (h : ∀ fs ∈ rows, ∀ f ∈ fs, fieldNeedsEscape f = false) :
    writeRows rows = (rows.map tabLine, false) := by
  induction rows with
  | nil => rfl
  | cons fs rest ih =>
    have h1 : fs.any fieldNeedsEscape = false := by
      rw [List.any_eq_false]
      intro f hf
      simp [h fs (by simp) f hf]
    simp [writeRows, h1, ih (fun gs hgs f hf => h gs (by simp [hgs]) f hf)]

/-- C7 (amended): on every store state whose tables both exist and whose
serialized field values are free of the tab delimiter, the quote character
and line terminators, the dump writes, for each table, its fixed-name file
from scratch: the header line followed by one tab-joined, unquoted line per
row in insertion order, so a table with N rows yields exactly N+1 lines and
an empty table yields a header-only file, with no error.  (Without the
extra hypotheses the original claim fails: see the counterexample, where a
field containing the delimiter aborts the dump with csv.Error, and a
never-created table aborts it with OperationalError.) -/
theorem dump_header_rows :
    ∀ (s : DBState) (pt : List PingRow) (st : List SpeedRow),
      s.pings = some pt → s.speedtests = some st →
      (∀ r ∈ pt, ∀ f ∈ pingRowFields r, fieldNeedsEscape f = false) →
      (∀ r ∈ st, ∀ f ∈ speedRowFields r, fieldNeedsEscape f = false) →
      dumpDataToCsv s =
        ((pingsHeader :: pt.map (fun r => tabLine (pingRowFields r)),
          speedtestsHeader :: st.map (fun r => tabLine (speedRowFields r))), none) ∧
      (dumpDataToCsv s).1.1.length = pt.length + 1 ∧
      (dumpDataToCsv s).1.2.length = st.length + 1 := by
  intro s pt st hp hs h1 h2
  have hw1 : writeRows (pt.map pingRowFields) = ((pt.map pingRowFields).map tabLine, false) :=
    writeRows_clean _ (by
      intro fs hfs f hf
      obtain ⟨r, hr, rfl⟩ := List.mem_map.mp hfs
      exact h1 r hr f hf)
  have hw2 : writeRows (st.map speedRowFields) = ((st.map speedRowFields).map tabLine, false) :=
    writeRows_clean _ (by
      intro fs hfs f hf
      obtain ⟨r, hr, rfl⟩ := List.mem_map.mp hfs
      exact h2 r hr f hf)
  have hmain : dumpDataToCsv s =
      ((pingsHeader :: pt.map (fun r => tabLine (pingRowFields r)),
        speedtestsHeader :: st.map (fun r => tabLine (speedRowFields r))), none) := by
    simp [dumpDataToCsv, hp, hs, hw1, hw2, List.map_map, Function.comp_def]
  refine ⟨hmain, ?_, ?_⟩ <;> rw [hmain] <;> simp

/-- Witness for the amended C7 on a store holding one clean row per
table. -/
theorem dump_header_rows_witness :
    dumpDataToCsv (DBState.mk (some [rowA]) (some [spRowB])) =
      ((pingsHeader :: [rowA].map (fun r => tabLine (pingRowFields r)),
        speedtestsHeader :: [spRowB].map (fun r => tabLine (speedRowFields r))), none) ∧
    (dumpDataToCsv (DBState.mk (some [rowA]) (some [spRowB]))).1.1.length = [rowA].length + 1 ∧
    (dumpDataToCsv (DBState.mk (some [rowA]) (some [spRowB]))).1.2.length = [spRowB].length + 1 :=
  dump_header_rows (DBState.mk (some [rowA]) (some [spRowB])) [rowA] [spRowB]
    rfl rfl (by decide) (by decide)

/-- A speedtests row whose server label contains the tab delimiter, as a
free-text sponsor name can. -/
def tabServerRow : SpeedRow := SpeedRow.mk ("21/01/01 00:10:00") 20 5 5 ("Foo\tBar (City)")

/-- C7 counterexample: on the store whose speedtests table holds
`tabServerRow`, the dump aborts with csv.Error (`QUOTE_NONE` with no
escapechar cannot write a field containing the delimiter), so the
speedtests file has 1 line instead of the claimed 1 row + 1 header = 2;
and on a store whose tables were never created the dump aborts with
OperationalError after truncating pings.csv.  The claim's universal
quantification over store states is therefore false. -/
theorem dump_needs_escape_cex :
    (dumpDataToCsv (DBState.mk (some []) (some [tabServerRow]))).2 =
      some DumpErr.csvNeedEscape ∧
    (dumpDataToCsv (DBState.mk (some []) (some [tabServerRow]))).1.2.length ≠
      [tabServerRow].length + 1 ∧
    (dumpDataToCsv (DBState.mk none none)).2 = some DumpErr.noSuchTable := by
  decide
